import Mathlib

/-!
Shallow embedding of `permashift.c` (vdr-plugin-permashift), a VDR plugin
that automatically records live TV.  The plugin is a set of callback
handlers over a small mutable state (one claimed timer pointer, one file
name, two transient flags, one tick counter) plus two global settings.

The embedding models:
  * the plugin state (`PluginState`, mirroring the fields of
    `cPluginPermashift` together with the globals `g_enablePlugin` and
    `g_maxLength`),
  * the host environment (`Host`, the host-owned collaborators the
    callbacks consult: timer list, recording index, channel directory,
    Setup thresholds, idle status, confirmation prompt result),
  * each entry point as a pure function from state (and inputs) to the
    new state together with a trace of `Event`s recording every call the
    plugin makes into the host (log lines, timer mutations, recording
    deletions, prompts).

C `int` arithmetic is modelled with `Int` and truncated division/modulus
(`Int.tdiv` / `Int.tmod`), matching C99 semantics.
-/

namespace Permashift

/-- A host-managed timer object, as far as the plugin reads it.  `id`
stands for the identity of the object (the C code compares timer pointers);
`start` and `stop` are the HHMM-encoded start/stop times returned by
`Start()` / set by `SetStop()`, while `stopTimeEpoch` is the absolute
stop time in seconds returned by `StopTime()`. -/
structure Timer where
  id : Nat
  priority : Int
  lifetime : Int
  start : Int
  stop : Int
  stopTimeEpoch : Int
  isSingleEvent : Bool
  recording : Bool
deriving Repr, DecidableEq

/-- The mutable state of the plugin: the globals `g_enablePlugin` and
`g_maxLength` plus the member fields of `cPluginPermashift`. -/
structure PluginState where
  g_enablePlugin : Bool
  g_maxLength : Int
  m_liveTimer : Option Timer
  m_fileName : Option String
  m_startingRecording : Bool
  m_stoppingRecording : Bool
  m_mainThreadCounter : Int
deriving Repr, DecidableEq

/-- The host environment consulted by the callbacks.  Function fields
model host lookups; scalar fields model host configuration and the
current situation at the time of the call.

`confirmResult` is the value returned by `Interface->Confirm(msg, 300,
true)`.  Modelled from the spec: `Interface` is host code outside this
repository; per the spec the blocking prompt has wait-for-timeout
semantics, so the call returns `true` when the user did not respond
within the 300-second timeout (the recording is then stopped) and
`false` when the user responded in time (the timeshift continues). -/
structure Host where
  timerIds : List Nat
  recordControlFileName : Option String
  recordingExists : String → Bool
  recordingDeleteOk : String → Bool
  pausePriority : Int
  pauseLifetime : Int
  transferPriority : Int
  isUserInactive : Bool
  confirmResult : Bool
  channelExists : Int → Bool
  now : Int

/-- One call from the plugin into the host, or (for the two `call*`
markers) one internal invocation of a plugin operation from a callback. -/
inductive Event where
  | log (msg : String)
  | recordControlsStart
  | setPriority (id : Nat) (p : Int)
  | setStop (id : Nat) (stop : Int)
  | timerSkip (id : Nat)
  | recordControlsProcess
  | timersDel (id : Nat)
  | timersSetModified
  | recordingDelete (fileName : String)
  | recordingsDelByName (fileName : String)
  | confirmPrompt
  | callStartLiveRecording
  | callStopLiveRecording
deriving Repr, DecidableEq

/-- The stop-time computation of `cPluginPermashift::TimerChange`
(lines 301–306): convert the HHMM start to minutes, add
`g_maxLength * 60` minutes, convert back to HHMM, and subtract 2400
once if the result reached 2400. -/
def computeNewStopTime (start g_maxLength : Int) : Int :=
  let startMin := start.tdiv 100 * 60 + start.tmod 100
  let newLength := g_maxLength * 60
  let newStopTime := startMin + newLength
  let newStopTime2 := newStopTime.tdiv 60 * 100 + newStopTime.tmod 60
  if newStopTime2 ≥ 2400 then newStopTime2 - 2400 else newStopTime2

/-- `cPluginPermashift::StartLiveRecording` (lines 182–199).  Returns the
C return value, the new plugin state and the trace of host calls.  The
`m_startingRecording` flag is set around `cRecordControls::Start` and is
back to `false` when the function returns. -/
def StartLiveRecording (host : Host) (s : PluginState) (channelNumber : Int) :
    Bool × PluginState × List Event :=
  if !s.g_enablePlugin then (true, s, [])
  else if !host.channelExists channelNumber then
    (false, s, [Event.log "Permashift: Did not find channel!"])
  else
    (true, { s with m_startingRecording := false }, [Event.recordControlsStart])

/-- `cPluginPermashift::StopLiveRecording` (lines 201–285).  Returns the
C return value, the new plugin state and the trace of host calls.  The
`m_stoppingRecording` flag is set around the stop/delete sequence and is
back to `false` when the function returns. -/
def StopLiveRecording (host : Host) (s : PluginState) :
    Bool × PluginState × List Event :=
  if !s.g_enablePlugin then (true, s, [])
  else
    match s.m_liveTimer with
    | none => (true, s, [])
    | some t =>
      -- First check if our pointer is still valid (scan of `Timers`).
      if !(host.timerIds.contains t.id) then
        (false, { s with m_liveTimer := none },
         [Event.log "Permashift: Plugin\x27s timer is gone!"])
      -- Check if it has been promoted and thus should not be deleted by us.
      else if t.priority > host.pausePriority ∨ t.lifetime > host.pauseLifetime then
        (true, { s with m_liveTimer := none }, [])
      else
        -- get the file name from the recorder
        let fileName := host.recordControlFileName
        let noNameLog := match fileName with
          | none => [Event.log "Permashift: Did not have file name of recording to delete!"]
          | some _ => []
        -- mark the timer to be stopped, process, delete the timer
        let stopSeq := [Event.timerSkip t.id, Event.recordControlsProcess,
                        Event.timersDel t.id, Event.timersSetModified]
        -- delete the recording and its file
        let delSeq := match fileName with
          | none => []
          | some fn =>
            if host.recordingExists fn then
              if host.recordingDeleteOk fn then
                [Event.recordingDelete fn, Event.recordingsDelByName fn]
              else
                [Event.recordingDelete fn,
                 Event.log "Permashift: Deleting recording failed!"]
            else
              [Event.log "Permashift: Did not find recording to delete!"]
        (true, { s with m_liveTimer := none, m_stoppingRecording := false },
         noNameLog ++ stopSeq ++ delSeq)

/-- `cPluginPermashift::ChannelSwitch` (lines 167–180).  The `call*`
marker events record which operation the handler invoked. -/
def ChannelSwitch (host : Host) (s : PluginState) (channelNumber : Int)
    (liveView : Bool) : PluginState × List Event :=
  if liveView then
    if channelNumber > 0 then
      let r := StartLiveRecording host s channelNumber
      (r.2.1, Event.callStartLiveRecording :: r.2.2)
    else
      let r := StopLiveRecording host s
      (r.2.1, Event.callStopLiveRecording :: r.2.2)
  else
    (s, [])

/-- The `eTimerChange` values of the VDR status interface that
`TimerChange` distinguishes. -/
inductive eTimerChange where
  | tcMod | tcAdd | tcDel
deriving Repr, DecidableEq

/-- `cPluginPermashift::TimerChange` (lines 287–329).  On `tcAdd` while
`m_startingRecording` is set, the handler claims the timer, lowers its
priority to `TRANSFERPRIORITY - 1` and rewrites its stop time; on
`tcDel` not caused by our own stopping, it cleans up the leftover
recording (by `m_fileName`) if the timer is a past, non-recording single
event, and clears the claim. -/
def TimerChange (host : Host) (s : PluginState) (timer : Option Timer)
    (change : eTimerChange) : PluginState × List Event :=
  match timer with
  | none => (s, [])
  | some t =>
    match change with
    | .tcAdd =>
      if s.m_startingRecording then
        let newPriority := host.transferPriority - 1
        let newStopTime := computeNewStopTime t.start s.g_maxLength
        let t1 := { t with priority := newPriority, stop := newStopTime }
        ({ s with m_liveTimer := some t1 },
         [Event.setPriority t.id newPriority, Event.setStop t.id newStopTime])
      else (s, [])
    | .tcDel =>
      match s.m_liveTimer with
      | some lt =>
        if !s.m_stoppingRecording ∧ t.id = lt.id then
          let delSeq :=
            if t.isSingleEvent ∧ !t.recording ∧ t.stopTimeEpoch ≤ host.now then
              match s.m_fileName with
              | none => []  -- Recordings.GetByName(NULL) finds nothing
              | some fn =>
                if host.recordingExists fn then
                  if host.recordingDeleteOk fn then
                    [Event.recordingDelete fn, Event.recordingsDelByName fn]
                  else
                    [Event.recordingDelete fn]
                else []
            else []
          ({ s with m_liveTimer := none }, delSeq)
        else (s, [])
      | none => (s, [])
    | .tcMod => (s, [])

/-- `cPluginPermashift::Recording` (lines 331–342): while starting, the
file name of the new recording is captured into `m_fileName`. -/
def Recording (s : PluginState) (fileName : String) (isOn : Bool) : PluginState :=
  if isOn then
    if s.m_startingRecording then { s with m_fileName := some fileName }
    else s
  else s

/-- `cPluginPermashift::MainThreadHook` (lines 147–165).  Note the
post-increment: the guard reads the old counter value, the counter is
incremented in any case, and is overwritten with 0 at the end of the
guarded block. -/
def MainThreadHook (host : Host) (s : PluginState) : PluginState × List Event :=
  let s1 := { s with m_mainThreadCounter := s.m_mainThreadCounter + 1 }
  if s.m_mainThreadCounter ≥ 60 then
    let r :=
      match s1.m_liveTimer with
      | some _ =>
        if host.isUserInactive then
          if host.confirmResult then
            let r' := StopLiveRecording host s1
            (r'.2.1, [Event.confirmPrompt, Event.callStopLiveRecording] ++ r'.2.2)
          else (s1, [Event.confirmPrompt])
        else (s1, [])
      | none => (s1, [])
    ({ r.1 with m_mainThreadCounter := 0 }, r.2)
  else (s1, [])

/-- `n` consecutive invocations of `MainThreadHook` against a fixed host
environment, accumulating the trace. -/
def ticks (host : Host) (s : PluginState) : Nat → PluginState × List Event
  | 0 => (s, [])
  | n + 1 =>
    let r := MainThreadHook host s
    let r' := ticks host r.1 n
    (r'.1, r.2 ++ r'.2)

/-- `cPluginPermashift::SetupParse` (lines 355–368).  The boolean is
true exactly for the string "1"; the integer goes through `atoi`. -/
def isSpace (c : Char) : Bool :=
  c = ' ' ∨ c = '\t' ∨ c = '\n' ∨ c = '\r' ∨ c = '\x0b' ∨ c = '\x0c'

/-- Accumulate the value of a leading run of decimal digits (the loop of
C `atoi` after sign handling); stops at the first non-digit. -/
def digitsVal : List Char → Nat → Nat
  | c :: cs, acc => if c.isDigit then digitsVal cs (acc * 10 + (c.toNat - 48)) else acc
  | [], acc => acc

/-- Modelled from the spec: the C library function `atoi`, host-side code not in
this repository.  Skips leading whitespace, consumes an optional sign,
parses a leading digit run, and yields 0 when no digits are present
(unbounded integers: overflow clamping is not modelled). -/
def atoiCore : List Char → Int
  | [] => 0
  | c :: cs =>
    if isSpace c then atoiCore cs
    else if c = '-' then -(digitsVal cs 0 : Int)
    else if c = '+' then (digitsVal cs 0 : Int)
    else if c.isDigit then (digitsVal (c :: cs) 0 : Int)
    else 0

def atoi (s : String) : Int := atoiCore s.data

def MenuEntry_EnablePlugin : String := "EnablePlugin"
def MenuEntry_MaxLength : String := "MaxTimeshiftLength"

def SetupParse (s : PluginState) (name value : String) : Bool × PluginState :=
  if name = MenuEntry_EnablePlugin then
    (true, { s with g_enablePlugin := value = "1" })
  else if name = MenuEntry_MaxLength then
    (true, { s with g_maxLength := atoi value })
  else (false, s)

/-- The constructor `cPluginPermashift::cPluginPermashift` (lines
116–123): enabled, `g_maxLength = Setup.InstantRecordTime / 60` (C
integer division), no claim, no file name, flags clear, counter 0. -/
def initState (instantRecordTime : Int) : PluginState :=
  { g_enablePlugin := true
    g_maxLength := instantRecordTime.tdiv 60
    m_liveTimer := none
    m_fileName := none
    m_startingRecording := false
    m_stoppingRecording := false
    m_mainThreadCounter := 0 }

/-! ### Concrete fixtures used by witnesses and counterexamples -/

/-- A concrete host environment for witnesses. -/
def host0 : Host :=
  { timerIds := [7]
    recordControlFileName := some "/video/live"
    recordingExists := fun _ => true
    recordingDeleteOk := fun _ => true
    pausePriority := 10
    pauseLifetime := 99
    transferPriority := 51
    isUserInactive := true
    confirmResult := true
    channelExists := fun _ => true
    now := 5000 }

/-- A concrete timer for witnesses: a past, non-recording single event. -/
def timer7 : Timer :=
  { id := 7, priority := 5, lifetime := 3, start := 2300, stop := 100,
    stopTimeEpoch := 4000, isSingleEvent := true, recording := false }

/-- A concrete plugin state holding a claim on `timer7`. -/
def sClaimed : PluginState :=
  { initState 180 with m_liveTimer := some timer7, m_fileName := some "/video/live" }

/-! ### Helper lemmas -/

/-- The stop-time computation of the source agrees with "start plus
`g_maxLength` hours, modulo 24 h, re-encoded as HHMM" on every valid
HHMM start time and hour count 1..23. -/
theorem computeNewStopTime_eq (h m H : Nat) (hh : h ≤ 23) (hm : m ≤ 59)
    (hH1 : 1 ≤ H) (hH2 : H ≤ 23) :
    computeNewStopTime ((h : Int) * 100 + (m : Int)) (H : Int) =
      ((((h * 60 + m + H * 60) % 1440) / 60) * 100 +
       ((h * 60 + m + H * 60) % 1440 % 60 : Nat) : Int) := by
  simp only [computeNewStopTime]
  rw [Int.tdiv_eq_ediv (a := (h : Int) * 100 + (m : Int)) (by positivity) (by norm_num),
      Int.tmod_eq_emod (a := (h : Int) * 100 + (m : Int)) (by positivity) (by norm_num)]
  rw [Int.tdiv_eq_ediv (by omega) (by norm_num),
      Int.tmod_eq_emod (by omega) (by norm_num)]
  push_cast
  omega

/-! ### Claims -/

/-- C1: for every valid start time `S = h*100 + m` (hours 0..23, minutes
0..59) and hour count `H` in 1..23, the stop time computed on
timer-added while the starting flag is set equals `S` plus `H*60`
minutes modulo 1440, re-encoded as HHMM; the timer is claimed with its
priority lowered to the transfer priority of the host minus one. -/
theorem C1_stop_time (host : Host) (s : PluginState) (t : Timer)
    (h m H : Nat) (hh : h ≤ 23) (hm : m ≤ 59) (hH1 : 1 ≤ H) (hH2 : H ≤ 23)
    (hstart : t.start = (h : Int) * 100 + (m : Int)) (hlen : s.g_maxLength = (H : Int))
    (hflag : s.m_startingRecording = true) :
    (TimerChange host s (some t) .tcAdd).1.m_liveTimer =
      some { t with priority := host.transferPriority - 1,
                    stop := ((((h * 60 + m + H * 60) % 1440) / 60) * 100 +
                             ((h * 60 + m + H * 60) % 1440 % 60 : Nat) : Int) } := by
  simp only [TimerChange, hflag, if_true]
  rw [hstart, hlen, computeNewStopTime_eq h m H hh hm hH1 hH2]

/-- C1 witness: the example given in the spec, start 23:00 with 3 hours,
yields stop time 02:00. -/
theorem C1_stop_time_witness :
    (TimerChange host0 { sClaimed with m_startingRecording := true, g_maxLength := 3 }
        (some timer7) .tcAdd).1.m_liveTimer =
      some { timer7 with priority := 50, stop := 200 } := by
  exact (C1_stop_time host0
    { sClaimed with m_startingRecording := true, g_maxLength := 3 } timer7
    23 0 3 (by norm_num) (by norm_num) (by norm_num) (by norm_num)
    (by decide) (by decide) rfl).trans (by decide)

/-- C2 counterexample: with `isLiveView = false` (here channel number 5),
the channel-switch handler does not invoke stop-live-recording — it does
nothing at all — refuting the claim that switching away from live view
(`isLiveView = false`) stops an active claimed recording. -/
theorem C2_counterexample :
    ¬ (Event.callStopLiveRecording ∈ (ChannelSwitch host0 sClaimed 5 false).2) ∧
    ChannelSwitch host0 sClaimed 5 false = (sClaimed, []) := by
  refine ⟨?_, rfl⟩
  intro hmem
  simp [ChannelSwitch] at hmem

/-- C2 (amended): stop-live-recording is invoked on a channel-switch
notification only when `isLiveView` is true and `channelNumber ≤ 0`;
when `isLiveView` is false the handler performs no action at all. -/
theorem C2_stop_on_switch_away (host : Host) (s : PluginState) (n : Int)
    (hn : n ≤ 0) :
    (ChannelSwitch host s n true).2 =
      Event.callStopLiveRecording :: (StopLiveRecording host s).2.2 ∧
    (ChannelSwitch host s n true).1 = (StopLiveRecording host s).2.1 ∧
    ChannelSwitch host s n false = (s, []) := by
  have hng : ¬ (n > 0) := by omega
  refine ⟨?_, ?_, ?_⟩ <;> simp [ChannelSwitch, hng]

/-- C2 witness: switching to channel 0 in live view invokes the stop
operation; a non-live-view notification is a no-op. -/
theorem C2_stop_on_switch_away_witness :
    (ChannelSwitch host0 sClaimed 0 true).2 =
      Event.callStopLiveRecording :: (StopLiveRecording host0 sClaimed).2.2 ∧
    (ChannelSwitch host0 sClaimed 0 true).1 = (StopLiveRecording host0 sClaimed).2.1 ∧
    ChannelSwitch host0 sClaimed 0 false = (sClaimed, []) :=
  C2_stop_on_switch_away host0 sClaimed 0 (by norm_num)

/-- C4: a claimed timer (still present in the timer list of the host) whose
priority exceeds the pause-priority threshold or whose lifetime exceeds
the pause-lifetime threshold is released on stop-live-recording: the
claim is cleared, the call returns success, and no host call is made
(empty trace) and no other state field changes. -/
theorem C4_promoted_released (host : Host) (s : PluginState) (t : Timer)
    (hen : s.g_enablePlugin = true)
    (hclaim : s.m_liveTimer = some t)
    (hvalid : host.timerIds.contains t.id = true)
    (hprom : t.priority > host.pausePriority ∨ t.lifetime > host.pauseLifetime) :
    StopLiveRecording host s = (true, { s with m_liveTimer := none }, []) := by
  have hmem : t.id ∈ host.timerIds := by simpa using hvalid
  simp [StopLiveRecording, hen, hclaim, hmem, hprom]

/-- C4 witness: a timer of priority 11 against a pause-priority
threshold of 10 is released without any host call. -/
theorem C4_promoted_released_witness :
    StopLiveRecording host0
        { sClaimed with m_liveTimer := some { timer7 with priority := 11 } } =
      (true, { sClaimed with m_liveTimer := none }, []) := by
  exact (C4_promoted_released host0
    { sClaimed with m_liveTimer := some { timer7 with priority := 11 } }
    { timer7 with priority := 11 }
    rfl rfl (by decide) (Or.inl (by decide))).trans (by decide)

/-- C6: when the claimed timer is no longer present in the host timer
list, stop-live-recording logs an error, clears the claim, and returns
failure, with no other state change and no other host call. -/
theorem C6_vanished_timer (host : Host) (s : PluginState) (t : Timer)
    (hen : s.g_enablePlugin = true)
    (hclaim : s.m_liveTimer = some t)
    (hvalid : host.timerIds.contains t.id = false) :
    StopLiveRecording host s =
      (false, { s with m_liveTimer := none },
       [Event.log "Permashift: Plugin\x27s timer is gone!"]) := by
  have hmem : t.id ∉ host.timerIds := by simpa using hvalid
  simp [StopLiveRecording, hen, hclaim, hmem]

/-- C6 witness: with an empty host timer list, the call fails, logs,
and clears the claim. -/
theorem C6_vanished_timer_witness :
    StopLiveRecording { host0 with timerIds := [] } sClaimed =
      (false, { sClaimed with m_liveTimer := none },
       [Event.log "Permashift: Plugin\x27s timer is gone!"]) :=
  C6_vanished_timer { host0 with timerIds := [] } sClaimed timer7 rfl rfl (by decide)

/-- C8: when the plugin is disabled, start-live-recording performs no
host call and no state change and reports success (and the channel
switch handler that invoked it leaves the state unchanged); when
enabled and the channel number is not found, an error is logged and
failure is returned with no state change. -/
theorem C8_start_disabled_or_missing (host : Host) (s : PluginState) (n : Int) :
    (s.g_enablePlugin = false →
      StartLiveRecording host s n = (true, s, []) ∧
      (n > 0 → ChannelSwitch host s n true = (s, [Event.callStartLiveRecording]))) ∧
    (s.g_enablePlugin = true → host.channelExists n = false →
      StartLiveRecording host s n =
        (false, s, [Event.log "Permashift: Did not find channel!"])) := by
  refine ⟨fun hdis => ⟨?_, fun hn => ?_⟩, fun hen hch => ?_⟩
  · simp [StartLiveRecording, hdis]
  · simp [ChannelSwitch, hn, StartLiveRecording, hdis]
  · simp [StartLiveRecording, hen, hch]

/-- C8 witness: switching to channel 5 while disabled is a no-op
success; with the plugin enabled and channel 5 missing from the channel
directory, the start fails with an error log. -/
theorem C8_start_disabled_or_missing_witness :
    (StartLiveRecording host0 { sClaimed with g_enablePlugin := false } 5 =
      (true, { sClaimed with g_enablePlugin := false }, []) ∧
     ChannelSwitch host0 { sClaimed with g_enablePlugin := false } 5 true =
      ({ sClaimed with g_enablePlugin := false }, [Event.callStartLiveRecording])) ∧
    StartLiveRecording { host0 with channelExists := fun _ => false } sClaimed 5 =
      (false, sClaimed, [Event.log "Permashift: Did not find channel!"]) := by
  refine ⟨⟨?_, ?_⟩, ?_⟩
  · exact ((C8_start_disabled_or_missing host0
      { sClaimed with g_enablePlugin := false } 5).1 rfl).1
  · exact ((C8_start_disabled_or_missing host0
      { sClaimed with g_enablePlugin := false } 5).1 rfl).2 (by norm_num)
  · exact (C8_start_disabled_or_missing
      { host0 with channelExists := fun _ => false } sClaimed 5).2 rfl rfl

/-- C3: on a timer-deleted notification not caused by our own stopping
(`m_stoppingRecording = false`) and referring to the claimed timer, the
claimed-timer reference is always cleared, and when the timer is a
single event, not recording, with its stop time passed, the recording
captured in `m_fileName` is deleted (storage, then index); a deletion
while the stopping flag is set does nothing at all. -/
theorem C3_external_delete (host : Host) (s : PluginState) (t lt : Timer)
    (fn : String) (s2 : PluginState)
    (hstop : s.m_stoppingRecording = false)
    (hclaim : s.m_liveTimer = some lt)
    (hid : t.id = lt.id)
    (hstop2 : s2.m_stoppingRecording = true) :
    (TimerChange host s (some t) .tcDel).1 = { s with m_liveTimer := none } ∧
    (t.isSingleEvent = true → t.recording = false → t.stopTimeEpoch ≤ host.now →
     s.m_fileName = some fn → host.recordingExists fn = true →
     host.recordingDeleteOk fn = true →
      (TimerChange host s (some t) .tcDel).2 =
        [Event.recordingDelete fn, Event.recordingsDelByName fn]) ∧
    TimerChange host s2 (some t) .tcDel = (s2, []) := by
  refine ⟨?_, ?_, ?_⟩
  · simp [TimerChange, hclaim, hstop, hid]
  · intro h1 h2 h3 hfn hex hok
    simp [TimerChange, hclaim, hstop, hid, h1, h2, h3, hfn, hex, hok]
  · cases h2 : s2.m_liveTimer <;> simp [TimerChange, hstop2, h2]

/-- C3 witness: deleting the claimed past single-event timer externally
clears the claim and deletes the captured recording (storage then
index); with the stopping flag set, the notification is a no-op. -/
theorem C3_external_delete_witness :
    (TimerChange host0 sClaimed (some timer7) .tcDel).1 =
      { sClaimed with m_liveTimer := none } ∧
    (TimerChange host0 sClaimed (some timer7) .tcDel).2 =
      [Event.recordingDelete "/video/live", Event.recordingsDelByName "/video/live"] ∧
    TimerChange host0 { sClaimed with m_stoppingRecording := true }
      (some timer7) .tcDel = ({ sClaimed with m_stoppingRecording := true }, []) := by
  have h := C3_external_delete host0 sClaimed timer7 timer7 "/video/live"
    { sClaimed with m_stoppingRecording := true } rfl rfl rfl rfl
  exact ⟨h.1, h.2.1 rfl rfl (by decide) rfl rfl rfl, h.2.2⟩

/-- C7: stop-live-recording is a no-op success when disabled or when no
timer is claimed; with a valid, unpromoted claimed timer it returns
success, clears the claim (and the stopping flag), marks the timer to
stop and deletes it from the timer list of the host, and deletes the
recording (storage then index) when the file name is available and both
lookups succeed; when the file name, the recording lookup, or the
deletion fails, an error is logged and the call still returns success
with the claim cleared. -/
theorem C7_stop_success_paths (host : Host) (s : PluginState) (t : Timer)
    (fn : String) :
    (s.g_enablePlugin = false → StopLiveRecording host s = (true, s, [])) ∧
    (s.m_liveTimer = none → StopLiveRecording host s = (true, s, [])) ∧
    (s.g_enablePlugin = true → s.m_liveTimer = some t →
     host.timerIds.contains t.id = true →
     t.priority ≤ host.pausePriority → t.lifetime ≤ host.pauseLifetime →
      ((StopLiveRecording host s).1 = true ∧
       (StopLiveRecording host s).2.1 =
         { s with m_liveTimer := none, m_stoppingRecording := false } ∧
       Event.timerSkip t.id ∈ (StopLiveRecording host s).2.2 ∧
       Event.timersDel t.id ∈ (StopLiveRecording host s).2.2 ∧
       (host.recordControlFileName = some fn →
        host.recordingExists fn = true → host.recordingDeleteOk fn = true →
         Event.recordingDelete fn ∈ (StopLiveRecording host s).2.2 ∧
         Event.recordingsDelByName fn ∈ (StopLiveRecording host s).2.2) ∧
       (host.recordControlFileName = some fn → host.recordingExists fn = false →
         Event.log "Permashift: Did not find recording to delete!" ∈
           (StopLiveRecording host s).2.2) ∧
       (host.recordControlFileName = some fn →
        host.recordingExists fn = true → host.recordingDeleteOk fn = false →
         Event.log "Permashift: Deleting recording failed!" ∈
           (StopLiveRecording host s).2.2) ∧
       (host.recordControlFileName = none →
         Event.log "Permashift: Did not have file name of recording to delete!" ∈
           (StopLiveRecording host s).2.2))) := by
  refine ⟨fun hdis => ?_, fun hnone => ?_, fun hen hclaim hvalid hp1 hp2 => ?_⟩
  · simp [StopLiveRecording, hdis]
  · cases he : s.g_enablePlugin <;> simp [StopLiveRecording, hnone, he]
  · have hmem : t.id ∈ host.timerIds := by simpa using hvalid
    refine ⟨?_, ?_, ?_, ?_, fun h1 h2 h3 => ?_, fun h1 h2 => ?_,
           fun h1 h2 h3 => ?_, fun h1 => ?_⟩ <;>
      simp_all [StopLiveRecording] <;>
      rw [if_neg (by omega :
        ¬ (host.pausePriority < t.priority ∨ host.pauseLifetime < t.lifetime))] <;>
      simp_all

/-- C7 witness: the three paths at concrete inputs — disabled, no
claim, and a full stop with successful recording deletion. -/
theorem C7_stop_success_paths_witness :
    StopLiveRecording host0 { sClaimed with g_enablePlugin := false } =
      (true, { sClaimed with g_enablePlugin := false }, []) ∧
    StopLiveRecording host0 (initState 180) = (true, initState 180, []) ∧
    ((StopLiveRecording host0 sClaimed).1 = true ∧
     (StopLiveRecording host0 sClaimed).2.1 =
       { sClaimed with m_liveTimer := none, m_stoppingRecording := false } ∧
     Event.timerSkip 7 ∈ (StopLiveRecording host0 sClaimed).2.2 ∧
     Event.timersDel 7 ∈ (StopLiveRecording host0 sClaimed).2.2 ∧
     Event.recordingDelete "/video/live" ∈ (StopLiveRecording host0 sClaimed).2.2 ∧
     Event.recordingsDelByName "/video/live" ∈ (StopLiveRecording host0 sClaimed).2.2) := by
  refine ⟨(C7_stop_success_paths host0
      { sClaimed with g_enablePlugin := false } timer7 "x").1 rfl,
    (C7_stop_success_paths host0 (initState 180) timer7 "x").2.1 rfl, ?_⟩
  have h := (C7_stop_success_paths host0 sClaimed timer7 "/video/live").2.2
    rfl rfl (by decide) (by decide) (by decide)
  have hrec := h.2.2.2.2.1 rfl rfl rfl
  exact ⟨h.1, h.2.1, h.2.2.1, h.2.2.2.1, hrec.1, hrec.2⟩

/-- A digit run over characters none of which are digits contributes
nothing: `digitsVal` returns its accumulator. -/
theorem digitsVal_no_digits (cs : List Char) (acc : Nat)
    (h : ∀ c ∈ cs, ¬ c.isDigit = true) : digitsVal cs acc = acc := by
  cases cs with
  | nil => rfl
  | cons c cs =>
    have hc := h c (by simp)
    simp [digitsVal, hc]

/-- `atoi` of a string containing no digit characters is 0. -/
theorem atoiCore_no_digits (cs : List Char)
    (h : ∀ c ∈ cs, ¬ c.isDigit = true) : atoiCore cs = 0 := by
  induction cs with
  | nil => rfl
  | cons c cs ih =>
    have hc := h c (by simp)
    have htail : ∀ c ∈ cs, ¬ c.isDigit = true := fun d hd => h d (by simp [hd])
    by_cases hsp : isSpace c = true
    · simpa [atoiCore, hsp] using ih htail
    · by_cases hminus : c = '-'
      · simp [atoiCore, hsp, hminus, digitsVal_no_digits cs 0 htail]
        exact fun _ => ih htail
      · by_cases hplus : c = '+'
        · simp [atoiCore, hsp, hminus, hplus, digitsVal_no_digits cs 0 htail]
          exact fun _ => ih htail
        · simp [atoiCore, hsp, hminus, hplus, hc]

/-- C9 counterexample: the malformed value "abc" for the maxHours
setting yields `g_maxLength = 0`, which does not lie within the
documented 1..23 range — refuting the claim that malformed values fall
back to a default inside that range. -/
theorem C9_counterexample :
    (SetupParse (initState 180) "MaxTimeshiftLength" "abc").2.g_maxLength = 0 ∧
    ¬ (1 ≤ (SetupParse (initState 180) "MaxTimeshiftLength" "abc").2.g_maxLength ∧
       (SetupParse (initState 180) "MaxTimeshiftLength" "abc").2.g_maxLength ≤ 23) := by
  constructor
  · rfl
  · intro h
    have h0 : (SetupParse (initState 180) "MaxTimeshiftLength" "abc").2.g_maxLength = 0 := rfl
    rw [h0] at h
    omega

/-- C9 (amended): for the boolean setting, every value other than
exactly "1" is parsed as false (and "1" as true); for the integer
maxHours setting, a value containing no digit at all falls back
silently to the `atoi` result 0, which lies outside the documented 1..23
range. -/
theorem C9_settings_parse (s : PluginState) (v : String) :
    (v ≠ "1" → (SetupParse s MenuEntry_EnablePlugin v).2.g_enablePlugin = false) ∧
    (SetupParse s MenuEntry_EnablePlugin "1").2.g_enablePlugin = true ∧
    ((∀ c ∈ v.data, ¬ c.isDigit = true) →
      (SetupParse s MenuEntry_MaxLength v).2.g_maxLength = 0 ∧
      ¬ (1 ≤ (SetupParse s MenuEntry_MaxLength v).2.g_maxLength ∧
         (SetupParse s MenuEntry_MaxLength v).2.g_maxLength ≤ 23)) := by
  refine ⟨fun hv => ?_, ?_, fun hnd => ?_⟩
  · simp [SetupParse, MenuEntry_EnablePlugin, hv]
  · simp [SetupParse, MenuEntry_EnablePlugin]
  · have hml : (SetupParse s MenuEntry_MaxLength v).2.g_maxLength = 0 := by
      simp [SetupParse, MenuEntry_MaxLength, MenuEntry_EnablePlugin, atoi,
            atoiCore_no_digits v.data hnd]
    exact ⟨hml, by rw [hml]; omega⟩

/-- C9 witness: the digit-containing value "0" is parsed as false and
"1" as true; the malformed value "abc" (no digits) yields
`g_maxLength = 0`, outside the 1..23 range. -/
theorem C9_settings_parse_witness :
    (SetupParse (initState 180) MenuEntry_EnablePlugin "0").2.g_enablePlugin = false ∧
    (SetupParse (initState 180) MenuEntry_EnablePlugin "1").2.g_enablePlugin = true ∧
    (SetupParse (initState 180) MenuEntry_MaxLength "abc").2.g_maxLength = 0 ∧
    ¬ (1 ≤ (SetupParse (initState 180) MenuEntry_MaxLength "abc").2.g_maxLength ∧
       (SetupParse (initState 180) MenuEntry_MaxLength "abc").2.g_maxLength ≤ 23) :=
  ⟨(C9_settings_parse (initState 180) "0").1 (by decide),
   (C9_settings_parse (initState 180) "0").2.1,
   ((C9_settings_parse (initState 180) "abc").2.2 (by decide)).1,
   ((C9_settings_parse (initState 180) "abc").2.2 (by decide)).2⟩

/-- Both transient attribution flags are clear. -/
def flagsClear (s : PluginState) : Prop :=
  s.m_startingRecording = false ∧ s.m_stoppingRecording = false

/-- Stop-live-recording never changes the starting flag. -/
theorem StopLiveRecording_starting_eq (host : Host) (s : PluginState) :
    (StopLiveRecording host s).2.1.m_startingRecording = s.m_startingRecording := by
  unfold StopLiveRecording
  repeat' split
  all_goals simp_all

/-- Stop-live-recording leaves the stopping flag clear whenever it was
clear on entry (it either never touches it or resets it to false). -/
theorem StopLiveRecording_stopping_eq (host : Host) (s : PluginState)
    (h : s.m_stoppingRecording = false) :
    (StopLiveRecording host s).2.1.m_stoppingRecording = false := by
  unfold StopLiveRecording
  repeat' split
  all_goals simp_all

/-- C10: every entry point returns with both the starting and the
stopping flag false (given they were false on entry, as they initially
are): the flags are only ever set transiently inside an operation and
are cleared on every return path. -/
theorem C10_flags_clear (host : Host) (s : PluginState) (n : Int) (lv : Bool)
    (t : Option Timer) (ch : eTimerChange) (fn : String) (b : Bool)
    (h1 : s.m_startingRecording = false) (h2 : s.m_stoppingRecording = false) :
    flagsClear (StartLiveRecording host s n).2.1 ∧
    flagsClear (StopLiveRecording host s).2.1 ∧
    flagsClear (ChannelSwitch host s n lv).1 ∧
    flagsClear (TimerChange host s t ch).1 ∧
    flagsClear (Recording s fn b) ∧
    flagsClear (MainThreadHook host s).1 := by
  have hstop : flagsClear (StopLiveRecording host s).2.1 :=
    ⟨by rw [StopLiveRecording_starting_eq]; exact h1,
     StopLiveRecording_stopping_eq host s h2⟩
  have hstart : flagsClear (StartLiveRecording host s n).2.1 := by
    unfold StartLiveRecording
    repeat' split
    all_goals simp_all [flagsClear]
  refine ⟨hstart, hstop, ?_, ?_, ?_, ?_⟩
  · unfold ChannelSwitch
    repeat' split
    · exact hstart
    · exact hstop
    · exact ⟨h1, h2⟩
  · unfold TimerChange
    repeat' split
    all_goals simp_all [flagsClear]
  · unfold Recording
    repeat' split
    all_goals simp_all [flagsClear]
  · unfold MainThreadHook
    cases hl : s.m_liveTimer
    all_goals repeat' split
    all_goals
      simp_all [flagsClear, StopLiveRecording_starting_eq,
                StopLiveRecording_stopping_eq]

/-- C10 witness: the flags are clear after each entry point at a
concrete state and input. -/
theorem C10_flags_clear_witness :
    flagsClear (StartLiveRecording host0 sClaimed 5).2.1 ∧
    flagsClear (StopLiveRecording host0 sClaimed).2.1 ∧
    flagsClear (ChannelSwitch host0 sClaimed 5 true).1 ∧
    flagsClear (TimerChange host0 sClaimed (some timer7) .tcDel).1 ∧
    flagsClear (Recording sClaimed "/video/live" true) ∧
    flagsClear (MainThreadHook host0 sClaimed).1 :=
  C10_flags_clear host0 sClaimed 5 true (some timer7) .tcDel "/video/live" true
    rfl rfl

/-- A tick below the threshold only increments the counter: the guard
reads the pre-increment value, so nothing happens while it is < 60. -/
theorem MainThreadHook_below (host : Host) (s : PluginState)
    (h : s.m_mainThreadCounter < 60) :
    MainThreadHook host s =
      ({ s with m_mainThreadCounter := s.m_mainThreadCounter + 1 }, []) := by
  unfold MainThreadHook
  rw [if_neg (by omega)]

/-- `k` ticks staying below the threshold only add `k` to the counter
and produce no events. -/
theorem ticks_below (host : Host) (s : PluginState) (k : Nat)
    (h : s.m_mainThreadCounter + (k : Int) ≤ 60) :
    ticks host s k =
      ({ s with m_mainThreadCounter := s.m_mainThreadCounter + (k : Int) }, []) := by
  induction k generalizing s with
  | zero => simp [ticks]
  | succ k ih =>
    simp only [ticks]
    rw [MainThreadHook_below host s (by push_cast at h; omega)]
    rw [ih { s with m_mainThreadCounter := s.m_mainThreadCounter + 1 }
        (by simp; push_cast at h ⊢; omega)]
    have harith : s.m_mainThreadCounter + 1 + (k : Int) =
        s.m_mainThreadCounter + ((k : Nat) + 1 : Nat) := by push_cast; ring
    simp [harith]

/-- Splitting a run of ticks: `a + b` ticks are `a` ticks followed by
`b` ticks from the intermediate state, with concatenated traces. -/
theorem ticks_add (host : Host) (s : PluginState) (a b : Nat) :
    ticks host s (a + b) =
      ((ticks host (ticks host s a).1 b).1,
       (ticks host s a).2 ++ (ticks host (ticks host s a).1 b).2) := by
  induction a generalizing s with
  | zero => simp [ticks]
  | succ a ih =>
    have hn : (a + 1) + b = (a + b) + 1 := by omega
    rw [hn]
    simp only [ticks]
    rw [ih]
    simp [List.append_assoc]

/-- The stop-live-recording trace consists of host calls only: it never
contains the prompt marker or an operation-invocation marker. -/
theorem StopLiveRecording_no_marker (host : Host) (s : PluginState) :
    Event.confirmPrompt ∉ (StopLiveRecording host s).2.2 ∧
    Event.callStopLiveRecording ∉ (StopLiveRecording host s).2.2 := by
  unfold StopLiveRecording
  repeat' split
  all_goals simp_all
  all_goals repeat' split
  all_goals simp_all

theorem StopLiveRecording_count_confirmPrompt (host : Host) (s : PluginState) :
    (StopLiveRecording host s).2.2.count Event.confirmPrompt = 0 :=
  List.count_eq_zero.mpr (StopLiveRecording_no_marker host s).1

theorem StopLiveRecording_count_callStop (host : Host) (s : PluginState) :
    (StopLiveRecording host s).2.2.count Event.callStopLiveRecording = 0 :=
  List.count_eq_zero.mpr (StopLiveRecording_no_marker host s).2

/-- A tick at or above the threshold with a claimed timer, an idle user
and a prompt timing out (result true): one prompt, one
stop-live-recording call. -/
theorem MainThreadHook_trigger_confirm (host : Host) (s : PluginState) (t : Timer)
    (h : s.m_mainThreadCounter ≥ 60) (hclaim : s.m_liveTimer = some t)
    (hidle : host.isUserInactive = true) (hcf : host.confirmResult = true) :
    MainThreadHook host s =
      ({ (StopLiveRecording host
            { s with m_mainThreadCounter := s.m_mainThreadCounter + 1 }).2.1
          with m_mainThreadCounter := 0 },
       Event.confirmPrompt :: Event.callStopLiveRecording ::
         (StopLiveRecording host
            { s with m_mainThreadCounter := s.m_mainThreadCounter + 1 }).2.2) := by
  unfold MainThreadHook
  rw [if_pos h]
  simp [hclaim, hidle, hcf]

/-- A tick at or above the threshold with a claimed timer, an idle user
and the user responding within the timeout (result false): one prompt,
no stop call, state kept apart from the counter reset. -/
theorem MainThreadHook_trigger_decline (host : Host) (s : PluginState) (t : Timer)
    (h : s.m_mainThreadCounter ≥ 60) (hclaim : s.m_liveTimer = some t)
    (hidle : host.isUserInactive = true) (hcf : host.confirmResult = false) :
    MainThreadHook host s =
      ({ s with m_mainThreadCounter := 0 }, [Event.confirmPrompt]) := by
  unfold MainThreadHook
  rw [if_pos h]
  simp [hclaim, hidle, hcf]

/-- C5 counterexample: starting from a zero tick counter, with an idle
user and a claimed timer, 60 consecutive ticks trigger NO confirmation
prompt (the guard reads the counter before incrementing, so the first
prompt comes only on the 61st tick) — refuting the claim that 60 ticks
trigger exactly one prompt. -/
theorem C5_counterexample :
    (ticks host0 sClaimed 60).2.count Event.confirmPrompt = 0 ∧
    ¬ ((ticks host0 sClaimed 60).2.count Event.confirmPrompt = 1) := by
  have h0 : (ticks host0 sClaimed 60).2.count Event.confirmPrompt = 0 := by decide
  exact ⟨h0, by omega⟩

/-- C5 (amended): starting from a zero tick counter, with an idle user
and a claimed timer, 61 consecutive ticks trigger exactly one
confirmation prompt; when the prompt times out without a response
(`confirmResult = true`, wait-for-timeout semantics) exactly one
stop-live-recording call is made, and when the user responds within the
timeout (`confirmResult = false`) none is made and the claim is kept. -/
theorem C5_one_prompt (host : Host) (s : PluginState) (t : Timer)
    (hc : s.m_mainThreadCounter = 0) (hclaim : s.m_liveTimer = some t)
    (hidle : host.isUserInactive = true) :
    (ticks host s 61).2.count Event.confirmPrompt = 1 ∧
    (host.confirmResult = true →
      (ticks host s 61).2.count Event.callStopLiveRecording = 1) ∧
    (host.confirmResult = false →
      (ticks host s 61).2.count Event.callStopLiveRecording = 0 ∧
      (ticks host s 61).1.m_liveTimer = some t) := by
  have h60 : ticks host s 60 = ({ s with m_mainThreadCounter := 60 }, []) := by
    have hb := ticks_below host s 60 (by rw [hc]; norm_num)
    rw [hc] at hb
    simpa using hb
  have hone : ticks host ({ s with m_mainThreadCounter := 60 } : PluginState) 1 =
      ((MainThreadHook host { s with m_mainThreadCounter := 60 }).1,
       (MainThreadHook host { s with m_mainThreadCounter := 60 }).2 ++ []) := rfl
  have hsplit := ticks_add host s 60 1
  norm_num at hsplit
  rw [h60] at hsplit
  dsimp only at hsplit
  rw [hone] at hsplit
  simp only [List.append_nil, List.nil_append] at hsplit
  have hclaim60 : ({ s with m_mainThreadCounter := 60 } :
      PluginState).m_liveTimer = some t := by simpa using hclaim
  cases hcf : host.confirmResult with
  | false =>
    rw [MainThreadHook_trigger_decline host { s with m_mainThreadCounter := 60 } t
        (by norm_num) hclaim60 hidle hcf] at hsplit
    rw [hsplit]
    refine ⟨?_, ?_, ?_⟩
    · simp
    · intro hcf2
      exact absurd hcf2 (by decide)
    · intro _
      exact ⟨by simp, by simpa using hclaim⟩
  | true =>
    rw [MainThreadHook_trigger_confirm host { s with m_mainThreadCounter := 60 } t
        (by norm_num) hclaim60 hidle hcf] at hsplit
    rw [hsplit]
    refine ⟨?_, ?_, ?_⟩
    · simp [List.count_cons, StopLiveRecording_count_confirmPrompt]
    · intro _
      simp [List.count_cons, StopLiveRecording_count_callStop]
    · intro hcf2
      exact absurd hcf2 (by decide)

/-- C5 witness: at a concrete idle host and claimed state, 61 ticks
yield one prompt and (non-response) one stop call; with a responding
user, one prompt and no stop call. -/
theorem C5_one_prompt_witness :
    ((ticks host0 sClaimed 61).2.count Event.confirmPrompt = 1 ∧
     (ticks host0 sClaimed 61).2.count Event.callStopLiveRecording = 1) ∧
    ((ticks { host0 with confirmResult := false } sClaimed 61).2.count
        Event.confirmPrompt = 1 ∧
     (ticks { host0 with confirmResult := false } sClaimed 61).2.count
        Event.callStopLiveRecording = 0) := by
  have h1 := C5_one_prompt host0 sClaimed timer7 rfl rfl rfl
  have h2 := C5_one_prompt { host0 with confirmResult := false } sClaimed timer7
    rfl rfl rfl
  exact ⟨⟨h1.1, h1.2.1 rfl⟩, ⟨h2.1, (h2.2.2 rfl).1⟩⟩

end Permashift
